import Mathlib

/-!
# Document chat and quiz page script (`static/script.js`)

A shallow embedding of the page script: JavaScript strings are sequences of UTF-16 code
units, the parts of the DOM the script touches are explicit records, and every handler is a
function from the page state and the outcome of its network request to the new page state.
A handler that the script declares `async` is embedded as the sequential composition of its
steps before and after the awaited response; no other handler runs in between.

Modelling conventions:
* the page holds every element the script looks up by a fixed id (`chat-box`, `user-input`,
  `file-status`, `quiz-container`, the form controls), so these lookups never return `null`;
* markup assigned to `innerHTML` is kept as the assigned string, it is not parsed;
* the request a handler sends is not part of the state: the outcome of the request is an
  argument of the handler;
* `alert` returns normally and is recorded with its argument.
-/

namespace QuizChat

/-! ## JavaScript strings -/

/-- A JavaScript string: its UTF-16 code units. -/
abbrev JSString := List Nat

/-- The UTF-16 code units of one Unicode scalar value. -/
def utf16 (c : Char) : List Nat :=
  if c.toNat < 0x10000 then [c.toNat]
  else [0xD800 + (c.toNat - 0x10000) / 0x400, 0xDC00 + (c.toNat - 0x10000) % 0x400]

/-- A string literal of the script. -/
def js (s : String) : JSString := s.toList.flatMap utf16

/-- The decimal rendering of a non-negative integer, as string concatenation and template
literals produce it (`'msg-' + Date.now()`, `index + 1`). -/
def numberToString (n : Nat) : JSString := (Nat.toDigits 10 n).flatMap utf16

/-- White space and line terminators, the code units `String.prototype.trim` strips. -/
def isTrimmable (c : Nat) : Bool :=
  c == 0x09 || c == 0x0A || c == 0x0B || c == 0x0C || c == 0x0D || c == 0x20 ||
  c == 0xA0 || c == 0x1680 || (0x2000 ≤ c && c ≤ 0x200A) || c == 0x2028 || c == 0x2029 ||
  c == 0x202F || c == 0x205F || c == 0x3000 || c == 0xFEFF

/-- The method `String.prototype.trim`. -/
def trim (s : JSString) : JSString :=
  ((s.dropWhile isTrimmable).reverse.dropWhile isTrimmable).reverse

/-- The method `String.prototype.startsWith` (at position 0). -/
def startsWith : JSString → JSString → Bool
  | _, [] => true
  | [], _ :: _ => false
  | c :: s, d :: a => c == d && startsWith s a

/-- The method `String.prototype.includes`. -/
def includes : JSString → JSString → Bool
  | [], a => startsWith [] a
  | c :: s, a => startsWith (c :: s) a || includes s a

/-! ## The two regular-expression replacements of `sendMessage` -/

/-- Line terminators: the code units the regular-expression atom `.` does not match. -/
def isLineTerminator (c : Nat) : Bool :=
  c == 0x0A || c == 0x0D || c == 0x2028 || c == 0x2029

/-- The tail `(.*?)\*\*` of the pattern, tried right after an opening `**`: the shortest run
of non-terminator units followed by `**`. Returns the captured group and the text after the
closing `**`, or `none` when the pattern does not match here. -/
def lazyGroup : JSString → Option (JSString × JSString)
  | [] => none
  | c :: rest =>
    if startsWith (c :: rest) (js "**") then some ([], rest.drop 1)
    else if isLineTerminator c then none
    else (lazyGroup rest).map fun p => (c :: p.1, p.2)

/-- The pattern `/\*\*(.*?)\*\*/` tried at the start of the text. -/
def matchBold (s : JSString) : Option (JSString × JSString) :=
  if startsWith s (js "**") then lazyGroup (s.drop 2) else none

/-- The global replacement `.replace(/\*\*(.*?)\*\*/g, '<b>$1</b>')`, scanning left to
right; the counter bounds the number of scan steps. -/
def replaceBoldFrom : Nat → JSString → JSString
  | 0, s => s
  | _ + 1, [] => []
  | n + 1, c :: rest =>
    match matchBold (c :: rest) with
    | some (group, after) => js "<b>" ++ group ++ js "</b>" ++ replaceBoldFrom n after
    | none => c :: replaceBoldFrom n rest

/-- The replacement `.replace(/\*\*(.*?)\*\*/g, '<b>$1</b>')`: one scan step per code
unit is always enough. -/
def replaceBold (s : JSString) : JSString := replaceBoldFrom s.length s

/-- The replacement `.replace(/\n/g, '<br>')`. -/
def replaceNewlines : JSString → JSString
  | [] => []
  | c :: rest => if c == 0x0A then js "<br>" ++ replaceNewlines rest else c :: replaceNewlines rest

/-- The `content` that `sendMessage` computes from `data.answer` (line 46). -/
def formatAnswer (answer : JSString) : JSString := replaceNewlines (replaceBold answer)

/-- How a handler ends: normally, or with a `TypeError` that nothing catches (for an `async`
function, the rejection of the promise it returned). -/
inductive Completion
  | normal
  | typeError
deriving DecidableEq, Repr

/-- The outcome of `await fetch(...)` followed by `await response.json()`. -/
inductive Fetched (α : Type)
  | rejected
  | unparsable (ok : Bool)
  | parsed (ok : Bool) (data : α)
deriving Repr

/-- A value read from a field of a decoded JSON object. `undefined` is an absent field;
`object` stands for any object or array. -/
inductive JSValue
  | undefined
  | null
  | bool (b : Bool)
  | number (n : Int)
  | string (s : JSString)
  | object
deriving DecidableEq, Repr

/-- The truthiness test of `if (value)`. -/
def JSValue.truthy : JSValue → Bool
  | .undefined => false
  | .null => false
  | .bool b => b
  | .number n => n != 0
  | .string s => !s.isEmpty
  | .object => true

/-! ## Tab controller -/

/-- An element of the document, as far as `switchTab` looks at it. -/
structure Element where
  id : JSString
  classList : List JSString
deriving DecidableEq, Repr

/-- The elements of the document in tree order. -/
abbrev Document := List Element

/-- The method `classList.remove(token)`. -/
def Element.removeClass (el : Element) (token : JSString) : Element :=
  { el with classList := el.classList.filter fun c => c != token }

/-- The method `classList.add(token)`. -/
def Element.addClass (el : Element) (token : JSString) : Element :=
  if el.classList.contains token then el else { el with classList := el.classList ++ [token] }

/-- The statement `document.querySelectorAll('.' + cls).forEach(el => el.classList.remove(token))`. -/
def removeClassFromAll (cls token : JSString) (doc : Document) : Document :=
  doc.map fun el => if el.classList.contains cls then el.removeClass token else el

/-- The statement `document.getElementById(id).classList.add(token)`: the first element in tree
order carrying the id gets the class; `none` when no element carries it and the property access
on `null` throws. -/
def addClassById (id token : JSString) : Document → Option Document
  | [] => none
  | el :: rest =>
    if el.id == id then some (el.addClass token :: rest)
    else (addClassById id token rest).map fun r => el :: r

/-- The function `switchTab(tabName)` (lines 2-6). -/
def switchTab (doc : Document) (tabName : JSString) : Document × Completion :=
  let doc1 := removeClassFromAll (js "view") (js "active") doc
  let doc2 := removeClassFromAll (js "menu-btn") (js "active") doc1
  match addClassById (tabName ++ js "-view") (js "active") doc2 with
  | some doc3 => (doc3, .normal)
  | none => (doc2, .typeError)

/-- The elements matching `.cls.active`. -/
def activeOf (cls : JSString) (doc : Document) : List Element :=
  doc.filter fun el => el.classList.contains cls && el.classList.contains (js "active")

/-! ## Chat session and upload handler -/

/-- A child of `#chat-box`. The markup assigned to `innerHTML` is kept as a string. -/
structure MessageElement where
  id : JSString
  className : JSString
  innerHTML : JSString
deriving DecidableEq, Repr

/-- The state of the page that the chat and upload handlers read and write. Only children of
`#chat-box` carry `msg-` identifiers. -/
structure ChatPage where
  chatBox : List MessageElement
  userInput : JSString
  fileStatus : JSString
  alerts : List JSValue
deriving DecidableEq, Repr

/-- The element `addMessage(role, text)` builds when `Date.now()` returns `now`. -/
def messageElement (now : Nat) (role text : JSString) : MessageElement :=
  { id := js "msg-" ++ numberToString now
    className := js "message " ++ role
    innerHTML :=
      js "<div class=\"avatar\">" ++
      (if role == js "bot" then js "<i class=\"fa-solid fa-robot\"></i>"
       else js "<i class=\"fa-solid fa-user\"></i>") ++
      js "</div><div class=\"text\">" ++ text ++ js "</div>" }

/-- The function `addMessage(role, text)` (lines 55-64); returns the new page and the id. -/
def addMessage (p : ChatPage) (now : Nat) (role text : JSString) : ChatPage × JSString :=
  ({ p with chatBox := p.chatBox ++ [messageElement now role text] },
   (messageElement now role text).id)

/-- The statement `document.getElementById(id).remove()`: the first element in tree order
carrying the id is removed; `none` when there is none. -/
def removeById (id : JSString) : List MessageElement → Option (List MessageElement)
  | [] => none
  | el :: rest =>
    if el.id == id then some rest else (removeById id rest).map fun r => el :: r

/-- The statement `document.getElementById(id).innerText = text` for a text without markup:
the first element carrying the id gets the text as its whole content. -/
def setInnerTextById (id text : JSString) :
    List MessageElement → Option (List MessageElement)
  | [] => none
  | el :: rest =>
    if el.id == id then some ({ el with innerHTML := text } :: rest)
    else (setInnerTextById id text rest).map fun r => el :: r

/-- The decoded body of a `/ask` response, when it is not `null`. -/
structure AskData where
  answer : JSValue
  image : Option JSString
deriving DecidableEq, Repr

def loadingMarkup : JSString := js "<i class=\"fa-solid fa-spinner fa-spin\"></i> Analyzing..."

/-- The markup appended to the content when `data.image` is truthy (line 48). -/
def imageMarkup (image : JSString) : JSString :=
  js "<div style=\"margin-top:15px;\"><img src=\"" ++ image ++
  js "\" style=\"max-width:100%; border-radius:8px; border:1px solid rgba(255,255,255,0.2);\"></div>"

/-- The `try` block of `sendMessage` (lines 39-51): `.ok` is normal completion, `.error`
carries the page at the moment an exception is thrown. -/
def sendMessageTry (p : ChatPage) (loadingId : JSString) (now : Nat) :
    Fetched (Option AskData) → Except ChatPage ChatPage
  | .rejected => .error p
  | .unparsable _ => .error p
  | .parsed _ data =>
    match removeById loadingId p.chatBox with
    | none => .error p
    | some children =>
      let p1 := { p with chatBox := children }
      match data with
      | none => .error p1
      | some d =>
        match d.answer with
        | .string answer =>
          if answer.isEmpty then .ok p1
          else
            let content := formatAnswer answer
            let content :=
              match d.image with
              | some image => if image.isEmpty then content else content ++ imageMarkup image
              | none => content
            .ok (addMessage p1 now (js "bot") content).1
        | v => if v.truthy then .error p1 else .ok p1

/-- The synchronous start of `sendMessage` (lines 31-37): `none` when the trimmed question is
empty and the function returns at once, otherwise the page with the user message and the
loading placeholder appended, and the placeholder id. -/
def sendMessageStart (p : ChatPage) (now1 now2 : Nat) : Option (ChatPage × JSString) :=
  let question := trim p.userInput
  if question.isEmpty then none
  else
    let p1 := (addMessage p now1 (js "user") question).1
    let p2 := { p1 with userInput := [] }
    some (addMessage p2 now2 (js "bot") loadingMarkup)

/-- The function `sendMessage()` (lines 30-53). `now1`, `now2`, `now3` are the values of
`Date.now()` in the three calls of `addMessage`. -/
def sendMessage (p : ChatPage) (now1 now2 now3 : Nat) (r : Fetched (Option AskData)) :
    ChatPage × Completion :=
  match sendMessageStart p now1 now2 with
  | none => (p, .normal)
  | some (p3, loadingId) =>
    match sendMessageTry p3 loadingId now3 r with
    | .ok p4 => (p4, .normal)
    | .error p4 =>
      match setInnerTextById loadingId (js "Error.") p4.chatBox with
      | some children => ({ p4 with chatBox := children }, .normal)
      | none => (p4, .typeError)

/-- The decoded body of an `/upload` response, when it is not `null`. -/
structure UploadData where
  filename : Option JSString
  error : JSValue
deriving DecidableEq, Repr

/-- The `change` handler of `#file-upload` (lines 9-27). `hasFile` tells whether
`e.target.files[0]` exists. -/
def uploadHandler (p : ChatPage) (hasFile : Bool) (now : Nat)
    (r : Fetched (Option UploadData)) : ChatPage :=
  if !hasFile then p
  else
    let p1 := { p with
      fileStatus := js "<i class=\"fa-solid fa-spinner fa-spin\"></i> Processing..." }
    match r with
    | .rejected => { p1 with fileStatus := js "Error." }
    | .unparsable _ => { p1 with fileStatus := js "Error." }
    | .parsed true none => { p1 with fileStatus := js "Error." }
    | .parsed true (some d) =>
      let p2 := { p1 with
        fileStatus := js "<i class=\"fa-solid fa-check\"></i> " ++
          (d.filename.getD (js "undefined")) ++ js " Ready" }
      (addMessage p2 now (js "bot")
        (js "I have analyzed the file. What would you like to know?")).1
    | .parsed false none =>
      { p1 with fileStatus := js "Error." }
    | .parsed false (some d) =>
      { p1 with fileStatus := js "Error uploading.", alerts := p1.alerts ++ [d.error] }

/-! ## Quiz engine -/

/-- One generated quiz item. The backend sends `options` only for the scored types. -/
structure QuizQuestion where
  question : JSString
  options : Option (List JSString)
  answer : JSString
deriving DecidableEq, Repr

/-- A card appended to `#quiz-container`. The markup assigned to `innerHTML` is kept as a
string. -/
structure QuizCard where
  className : JSString
  innerHTML : JSString
deriving DecidableEq, Repr

/-- The content of `#quiz-container`: the nodes parsed from the markup last assigned to
`innerHTML`, followed by the cards appended since. -/
structure QuizContainer where
  innerHTML : JSString
  appended : List QuizCard
deriving DecidableEq, Repr

/-- The assignment `container.innerHTML = markup`. -/
def QuizContainer.setInnerHTML (_ : QuizContainer) (markup : JSString) : QuizContainer :=
  { innerHTML := markup, appended := [] }

/-- The accumulation of `optionsHtml` over `q.options` (lines 102-105). -/
def optionsHtml (answer : JSString) (options : List JSString) : JSString :=
  options.foldl
    (fun html opt =>
      html ++ js "<button class=\"option-btn\" onclick=\"checkAnswer(this, \x27" ++ answer ++
        js "\x27)\">" ++ opt ++ js "</button>")
    []

/-- The value of `contentHtml` for one question (lines 98-113); `none` when `q.options` is
undefined and `q.options.forEach` throws. -/
def contentHtml (type : JSString) (q : QuizQuestion) : Option JSString :=
  if type == js "multiple_choice" || type == js "true_false" then
    match q.options with
    | none => none
    | some options =>
      some (js "<div class=\"quiz-options\">" ++ optionsHtml q.answer options ++
        js "</div><div class=\"feedback\" style=\"display:none; margin-top:10px; font-weight:bold;\"></div>")
  else
    some (js "\n                <button class=\"reveal-btn\" onclick=\"this.nextElementSibling.style.display=\x27block\x27; this.style.display=\x27none\x27\">Show Answer</button>\n                <div class=\"feedback\" style=\"display:none; margin-top:10px; color:#4ade80;\"><b>Answer:</b> " ++
      q.answer ++ js "</div>\n            ")

/-- The heading `<h4>${index + 1}. ${q.question}</h4>` of a card (line 115). -/
def cardHeading (index : Nat) (q : QuizQuestion) : JSString :=
  js "<h4>" ++ numberToString (index + 1) ++ js ". " ++ q.question ++ js "</h4>"

/-- The card built for the question at `index` (lines 95-115); `none` when building throws. -/
def quizCard (type : JSString) (index : Nat) (q : QuizQuestion) : Option QuizCard :=
  (contentHtml type q).map fun content =>
    { className := js "quiz-card", innerHTML := cardHeading index q ++ content }

/-- The loop `questions.forEach((q, index) => ...)` from `index` on: the cards appended, and
how the loop ends. A throwing callback ends the loop; the cards appended before stay. -/
def renderCards (type : JSString) : Nat → List QuizQuestion → List QuizCard × Completion
  | _, [] => ([], .normal)
  | index, q :: rest =>
    match quizCard type index q with
    | none => ([], .typeError)
    | some card => ((card :: (renderCards type (index + 1) rest).1),
        (renderCards type (index + 1) rest).2)

/-- The function `renderQuiz(questions, type)` (lines 90-118). -/
def renderQuiz (container : QuizContainer) (questions : List QuizQuestion) (type : JSString) :
    QuizContainer × Completion :=
  ({ (container.setInnerHTML []) with appended := (renderCards type 0 questions).1 },
   (renderCards type 0 questions).2)

/-- The field `data.quiz_data` of a `/generate_quiz` response and what `JSON.parse` makes of
it. -/
inductive QuizPayload
  | falsy
  | unparsable
  | notArray
  | questions (qs : List QuizQuestion)
deriving DecidableEq, Repr

/-- The decoded body of a `/generate_quiz` response, when it is not `null`. -/
structure QuizData where
  quiz_data : QuizPayload
  type : JSString
deriving DecidableEq, Repr

def quizLoadingMarkup : JSString :=
  js "<div class=\"empty-state\"><i class=\"fa-solid fa-spinner fa-spin\"></i> Generating custom quiz...</div>"

def quizErrorMarkup : JSString := js "<p>Error generating quiz.</p>"

/-- The function `generateQuiz()` (lines 67-88), on the quiz container. -/
def generateQuiz (container : QuizContainer) (r : Fetched (Option QuizData)) : QuizContainer :=
  let loading := container.setInnerHTML quizLoadingMarkup
  match r with
  | .rejected => loading.setInnerHTML quizErrorMarkup
  | .unparsable _ => loading.setInnerHTML quizErrorMarkup
  | .parsed _ none => loading.setInnerHTML quizErrorMarkup
  | .parsed _ (some data) =>
    match data.quiz_data with
    | .falsy => loading
    | .unparsable => loading.setInnerHTML quizErrorMarkup
    | .notArray => (loading.setInnerHTML []).setInnerHTML quizErrorMarkup
    | .questions qs =>
      match renderQuiz loading qs data.type with
      | (rendered, .normal) => rendered
      | (rendered, .typeError) => rendered.setInnerHTML quizErrorMarkup

/-! ## Answer checking -/

/-- An option button of a rendered card: its displayed text and its inline background. -/
structure OptionButton where
  innerText : JSString
  background : JSString
deriving DecidableEq, Repr

/-- The feedback region that follows the options of a card. -/
structure FeedbackRegion where
  innerText : JSString
  color : JSString
  display : JSString
deriving DecidableEq, Repr

/-- The part of a multiple-choice or true/false card that `checkAnswer` reads and writes: the
buttons inside `.quiz-options` and the `.feedback` sibling. -/
structure OptionsCard where
  buttons : List OptionButton
  feedback : FeedbackRegion
deriving DecidableEq, Repr

def neutralBackground : JSString := js "rgba(0,0,0,0.2)"
def greenBackground : JSString := js "rgba(34, 197, 94, 0.5)"
def redBackground : JSString := js "rgba(239, 68, 68, 0.5)"

/-- The function `checkAnswer(btn, correctAnswer)` (lines 120-136), where `btn` is the button
at position `i` of the card. A position without a button is no click at all. -/
def checkAnswer (card : OptionsCard) (i : Nat) (correctAnswer : JSString) : OptionsCard :=
  match card.buttons[i]? with
  | none => card
  | some btn =>
    let selected := btn.innerText
    let reset := card.buttons.map fun b => { b with background := neutralBackground }
    if trim selected == trim correctAnswer || includes selected correctAnswer then
      { buttons := reset.set i { btn with background := greenBackground },
        feedback := { innerText := js "Correct!", color := js "#4ade80", display := js "block" } }
    else
      { buttons := reset.set i { btn with background := redBackground },
        feedback := { innerText := js "Incorrect. Answer: " ++ correctAnswer,
                      color := js "#f87171", display := js "block" } }

/-- A page with an empty transcript and a question typed into the input box. -/
def samplePage : ChatPage :=
  { chatBox := [], userInput := js " What is X? ", fileStatus := [], alerts := [] }

/-- A page with two view panels and two nav buttons, the chat tab selected. -/
def sampleDocument : Document :=
  [ ⟨js "chat-view", [js "view", js "active"]⟩,
    ⟨js "quiz-view", [js "view"]⟩,
    ⟨js "chat-tab", [js "menu-btn", js "active"]⟩,
    ⟨js "quiz-tab", [js "menu-btn"]⟩ ]

/-- The freshly rendered card of the question "2+2?" with options "3" and "4". -/
def sampleCard : OptionsCard :=
  { buttons := [⟨js "3", []⟩, ⟨js "4", []⟩], feedback := ⟨[], [], js "none"⟩ }

/-! ## Strings -/

theorem startsWith_iff (s a : JSString) : startsWith s a = true ↔ a <+: s := by
  induction s generalizing a with
  | nil => cases a <;> simp [startsWith]
  | cons c s ih =>
    cases a with
    | nil => simp [startsWith]
    | cons d a =>
      simp only [startsWith, Bool.and_eq_true, beq_iff_eq, ih, List.cons_prefix_cons]
      constructor
      · rintro ⟨h, h2⟩; exact ⟨h.symm, h2⟩
      · rintro ⟨h, h2⟩; exact ⟨h.symm, h2⟩

theorem includes_iff (s a : JSString) : includes s a = true ↔ a <:+: s := by
  induction s with
  | nil => simp [includes, startsWith_iff]
  | cons c s ih =>
    simp [includes, startsWith_iff, ih, List.infix_cons_iff]

theorem replaceBold_nil : replaceBold [] = [] := rfl

theorem removeById_fresh (id : JSString) (xs : List MessageElement) (el : MessageElement)
    (hfresh : ∀ x ∈ xs, x.id ≠ id) (hid : el.id = id) :
    removeById id (xs ++ [el]) = some xs := by
  induction xs with
  | nil => simp [removeById, hid]
  | cons x rest ih =>
    have hx : x.id ≠ id := hfresh x (List.mem_cons_self _ _)
    simp [removeById, hx, ih (fun y hy => hfresh y (List.mem_cons_of_mem _ hy))]

theorem setInnerTextById_fresh (id text : JSString) (xs : List MessageElement)
    (el : MessageElement) (hfresh : ∀ x ∈ xs, x.id ≠ id) (hid : el.id = id) :
    setInnerTextById id text (xs ++ [el]) = some (xs ++ [{ el with innerHTML := text }]) := by
  induction xs with
  | nil => simp [setInnerTextById, hid]
  | cons x rest ih =>
    have hx : x.id ≠ id := hfresh x (List.mem_cons_self _ _)
    simp [setInnerTextById, hx, ih (fun y hy => hfresh y (List.mem_cons_of_mem _ hy))]

theorem sendMessageStart_eq (p : ChatPage) (now1 now2 : Nat) (hq : trim p.userInput ≠ []) :
    sendMessageStart p now1 now2 =
      some ({ p with
              chatBox := p.chatBox ++ [messageElement now1 (js "user") (trim p.userInput),
                messageElement now2 (js "bot") loadingMarkup]
              userInput := [] },
            (messageElement now2 (js "bot") loadingMarkup).id) := by
  have : (trim p.userInput).isEmpty = false := by
    cases h : trim p.userInput with
    | nil => exact absurd h hq
    | cons _ _ => rfl
  simp [sendMessageStart, this, addMessage]

/-- With an unused placeholder id, a non-empty answer ends as: prior transcript, user message,
bot answer. -/
theorem sendMessage_fresh_ids (p : ChatPage) (now1 now2 now3 : Nat) (ok : Bool)
    (answer : JSString) (hq : trim p.userInput ≠ []) (ha : answer ≠ [])
    (hfresh : ∀ x ∈ p.chatBox ++ [messageElement now1 (js "user") (trim p.userInput)],
      x.id ≠ (messageElement now2 (js "bot") loadingMarkup).id) :
    sendMessage p now1 now2 now3 (.parsed ok (some ⟨.string answer, none⟩)) =
      ({ p with
          chatBox := p.chatBox ++ [messageElement now1 (js "user") (trim p.userInput),
            messageElement now3 (js "bot") (formatAnswer answer)]
          userInput := [] }, .normal) := by
  have hne : answer.isEmpty = false := by
    cases answer with
    | nil => exact absurd rfl ha
    | cons _ _ => rfl
  have hc := removeById_fresh (messageElement now2 (js "bot") loadingMarkup).id _
    (messageElement now2 (js "bot") loadingMarkup) hfresh rfl
  simp only [List.append_assoc, List.singleton_append] at hc
  simp [sendMessage, sendMessageStart_eq p now1 now2 hq, sendMessageTry, hc, hne, addMessage]

/-- With an unused placeholder id, a failed request leaves the placeholder in place with the
text "Error.". -/
theorem sendMessage_rejected_fresh_ids (p : ChatPage) (now1 now2 now3 : Nat)
    (hq : trim p.userInput ≠ [])
    (hfresh : ∀ x ∈ p.chatBox ++ [messageElement now1 (js "user") (trim p.userInput)],
      x.id ≠ (messageElement now2 (js "bot") loadingMarkup).id) :
    sendMessage p now1 now2 now3 .rejected =
      ({ p with
          chatBox := p.chatBox ++ [messageElement now1 (js "user") (trim p.userInput),
            { messageElement now2 (js "bot") loadingMarkup with innerHTML := js "Error." }]
          userInput := [] }, .normal) := by
  have hc := setInnerTextById_fresh (messageElement now2 (js "bot") loadingMarkup).id
    (js "Error.") _ (messageElement now2 (js "bot") loadingMarkup) hfresh rfl
  simp only [List.append_assoc, List.singleton_append] at hc
  simp [sendMessage, sendMessageStart_eq p now1 now2 hq, sendMessageTry, hc]

/-- C3: when both calls of `addMessage` read the same `Date.now()` value, the lookup by id
finds the user message first: it is removed, and the loading placeholder stays. -/
theorem sendMessage_same_millisecond :
    sendMessage samplePage 1000 1000 1001
        (.parsed true (some ⟨.string (js "X is a letter."), none⟩)) =
      ({ chatBox := [messageElement 1000 (js "bot") loadingMarkup,
                     messageElement 1001 (js "bot") (js "X is a letter.")]
         userInput := [], fileStatus := [], alerts := [] }, .normal) ∧
    (sendMessage samplePage 1000 1000 1001
        (.parsed true (some ⟨.string (js "X is a letter."), none⟩))).1.chatBox ≠
      samplePage.chatBox ++ [messageElement 1000 (js "user") (js "What is X?"),
                     messageElement 1001 (js "bot") (js "X is a letter.")] := by
  decide

/-- C4: a response without `answer` removes the placeholder and shows no error text; a truthy
`answer` that is no string makes the `catch` block itself throw, so the call rejects. -/
theorem sendMessage_unhandled_responses :
    sendMessage samplePage 1000 1001 1002 (.parsed true (some ⟨.undefined, none⟩)) =
      ({ chatBox := [messageElement 1000 (js "user") (js "What is X?")]
         userInput := [], fileStatus := [], alerts := [] }, .normal) ∧
    sendMessage samplePage 1000 1001 1002 (.parsed true (some ⟨.number 42, none⟩)) =
      ({ chatBox := [messageElement 1000 (js "user") (js "What is X?")]
         userInput := [], fileStatus := [], alerts := [] }, .typeError) := by
  decide

/-! ## Upload handler -/

/-- C8: a non-2xx upload response with body `{error: e}` ends with the status
"Error uploading.", exactly one more alert, showing `e`, and an unchanged transcript. -/
theorem uploadHandler_error_response (p : ChatPage) (now : Nat) (filename : Option JSString)
    (e : JSString) :
    uploadHandler p true now (.parsed false (some ⟨filename, .string e⟩)) =
      { p with fileStatus := js "Error uploading.", alerts := p.alerts ++ [.string e] } ∧
    (uploadHandler p true now (.parsed false (some ⟨filename, .string e⟩))).chatBox =
      p.chatBox ∧
    uploadHandler samplePage true 1000 (.parsed false (some ⟨none, .string (js "too large")⟩)) =
      { samplePage with
          fileStatus := js "Error uploading.", alerts := [.string (js "too large")] } := by
  refine ⟨rfl, rfl, by decide⟩

/-! ## Tab controller -/

theorem removeClass_not_contains (el : Element) (token : JSString) :
    (el.removeClass token).classList.contains token = false := by
  simp [Element.removeClass, List.contains_iff_exists_mem_beq]

theorem removeClassFromAll_inactive (cls : JSString) (doc : Document) :
    ∀ el ∈ removeClassFromAll cls (js "active") doc,
      (el.classList.contains cls && el.classList.contains (js "active")) = false := by
  intro el hel
  simp only [removeClassFromAll, List.mem_map] at hel
  obtain ⟨x, _, hx⟩ := hel
  by_cases hc : x.classList.contains cls = true
  · rw [if_pos hc] at hx
    subst hx
    rw [removeClass_not_contains]
    simp
  · rw [if_neg hc] at hx
    subst hx
    rw [(Bool.not_eq_true _).mp hc]
    rfl

theorem removeClassFromAll_keeps_inactive (cls other : JSString) (doc : Document)
    (h : ∀ el ∈ doc,
      (el.classList.contains other && el.classList.contains (js "active")) = false) :
    ∀ el ∈ removeClassFromAll cls (js "active") doc,
      (el.classList.contains other && el.classList.contains (js "active")) = false := by
  intro el hel
  simp only [removeClassFromAll, List.mem_map] at hel
  obtain ⟨x, hxm, hx⟩ := hel
  by_cases hc : x.classList.contains cls = true
  · rw [if_pos hc] at hx
    subst hx
    rw [removeClass_not_contains]
    simp
  · rw [if_neg hc] at hx
    subst hx
    exact h x hxm

theorem removeClassFromAll_ids (cls token : JSString) (doc : Document) :
    (removeClassFromAll cls token doc).map (·.id) = doc.map (·.id) := by
  simp only [removeClassFromAll, List.map_map]
  apply List.map_congr_left
  intro el _
  simp only [Function.comp]
  split <;> rfl

theorem addClassById_mem (id token : JSString) (doc doc' : Document)
    (h : addClassById id token doc = some doc') :
    ∀ el ∈ doc', el ∈ doc ∨ el.id = id := by
  induction doc generalizing doc' with
  | nil => simp [addClassById] at h
  | cons x rest ih =>
    unfold addClassById at h
    split at h
    · next hx =>
      simp only [Option.some.injEq] at h
      subst h
      intro el hel
      rcases List.mem_cons.mp hel with h1 | h1
      · right
        subst h1
        have : x.id = id := by simpa using hx
        unfold Element.addClass
        split <;> exact this
      · left; exact List.mem_cons_of_mem _ h1
    · cases hr : addClassById id token rest with
      | none => rw [hr] at h; simp at h
      | some r =>
        rw [hr] at h
        simp only [Option.map_some', Option.some.injEq] at h
        subst h
        intro el hel
        rcases List.mem_cons.mp hel with h1 | h1
        · left; subst h1; exact List.mem_cons_self _ _
        · rcases ih r hr el h1 with h2 | h2
          · left; exact List.mem_cons_of_mem _ h2
          · right; exact h2

theorem addClassById_none (id token : JSString) (doc : Document)
    (h : ∀ el ∈ doc, el.id ≠ id) : addClassById id token doc = none := by
  induction doc with
  | nil => rfl
  | cons x rest ih =>
    have hx : x.id ≠ id := h x (List.mem_cons_self _ _)
    simp [addClassById, hx, ih (fun y hy => h y (List.mem_cons_of_mem _ hy))]

theorem removeClass_contains_of_ne (el : Element) (token cls : JSString) (h : cls ≠ token) :
    (el.removeClass token).classList.contains cls = el.classList.contains cls := by
  unfold Element.removeClass
  simp only []
  induction el.classList with
  | nil => rfl
  | cons c rest ih =>
    by_cases hc : c = token
    · have hne : ¬ cls = c := fun e => h (e.trans hc)
      have hf : (c != token) = false := by simp [hc]
      rw [List.filter_cons, hf]
      simp only [Bool.false_eq_true, if_false, List.contains_cons]
      rw [ih]
      simp [hne]
    · have hf : (c != token) = true := by simp [hc]
      rw [List.filter_cons, hf]
      simp only [if_true, List.contains_cons]
      rw [ih]

theorem addClass_contains (el : Element) (token : JSString) :
    (el.addClass token).classList.contains token = true ∧
    (∀ cls, el.classList.contains cls = true → (el.addClass token).classList.contains cls = true) ∧
    (el.addClass token).id = el.id := by
  unfold Element.addClass
  by_cases h : el.classList.contains token = true
  · rw [if_pos h]
    exact ⟨h, fun _ hc => hc, rfl⟩
  · rw [if_neg h]
    refine ⟨by simp, fun cls hc => ?_, rfl⟩
    rw [List.contains_iff_exists_mem_beq] at hc ⊢
    obtain ⟨c, hm, hb⟩ := hc
    exact ⟨c, List.mem_append_left _ hm, hb⟩

theorem removeClassFromAll_mem (cls token : JSString) (doc : Document) (el : Element)
    (h : el ∈ removeClassFromAll cls token doc) :
    ∃ x ∈ doc, x.id = el.id ∧
      ∀ c, c ≠ token → el.classList.contains c = x.classList.contains c := by
  simp only [removeClassFromAll, List.mem_map] at h
  obtain ⟨x, hx, he⟩ := h
  refine ⟨x, hx, ?_⟩
  by_cases hc : x.classList.contains cls = true
  · rw [if_pos hc] at he
    subst he
    exact ⟨rfl, fun c hne => removeClass_contains_of_ne x token c hne⟩
  · rw [if_neg hc] at he
    subst he
    exact ⟨rfl, fun _ _ => rfl⟩

theorem addClassById_one_active (id cls : JSString) (doc : Document)
    (hinactive : ∀ el ∈ doc,
      (el.classList.contains cls && el.classList.contains (js "active")) = false)
    (hex : ∃ el ∈ doc, el.id = id)
    (hcls : ∀ el ∈ doc, el.id = id → el.classList.contains cls = true) :
    ∃ doc' panel, addClassById id (js "active") doc = some doc' ∧ panel.id = id ∧
      activeOf cls doc' = [panel] := by
  induction doc with
  | nil => simp at hex
  | cons x rest ih =>
    have hrest_inactive : List.filter (fun el =>
        el.classList.contains cls && el.classList.contains (js "active")) rest = [] := by
      apply List.filter_eq_nil_iff.mpr
      intro el hel
      show ¬ (el.classList.contains cls && el.classList.contains (js "active")) = true
      rw [hinactive el (List.mem_cons_of_mem _ hel)]
      exact Bool.false_ne_true
    by_cases hx : x.id = id
    · obtain ⟨h1, h2, h3⟩ := addClass_contains x (js "active")
      refine ⟨x.addClass (js "active") :: rest, x.addClass (js "active"), ?_, h3.trans hx, ?_⟩
      · simp [addClassById, hx]
      · unfold activeOf
        rw [List.filter_cons, h1, h2 cls (hcls x (List.mem_cons_self _ _) hx), hrest_inactive]
        rfl
    · have hex' : ∃ el ∈ rest, el.id = id := by
        obtain ⟨el, hel, hid⟩ := hex
        rcases List.mem_cons.mp hel with h1 | h1
        · subst h1; exact absurd hid hx
        · exact ⟨el, h1, hid⟩
      obtain ⟨doc', panel, hadd, hid, hact⟩ := ih
        (fun el hel => hinactive el (List.mem_cons_of_mem _ hel)) hex'
        (fun el hel => hcls el (List.mem_cons_of_mem _ hel))
      refine ⟨x :: doc', panel, ?_, hid, ?_⟩
      · simp [addClassById, hx, hadd]
      · unfold activeOf at hact ⊢
        rw [List.filter_cons, hinactive x (List.mem_cons_self _ _)]
        simpa using hact

/-- When the first element with id `name-view` exists and every such element is a view panel,
`switchTab(name)` ends normally with that panel as the one active view. -/
theorem switchTab_one_active_view (doc : Document) (tabName : JSString)
    (hex : ∃ el ∈ doc, el.id = tabName ++ js "-view")
    (hview : ∀ el ∈ doc, el.id = tabName ++ js "-view" → el.classList.contains (js "view") = true) :
    (switchTab doc tabName).2 = .normal ∧
    ∃ panel, panel.id = tabName ++ js "-view" ∧
      activeOf (js "view") (switchTab doc tabName).1 = [panel] := by
  have hne : js "view" ≠ js "active" := by decide
  have h1 := removeClassFromAll_keeps_inactive (js "menu-btn") (js "view") _
    (removeClassFromAll_inactive (js "view") doc)
  have h2 : ∃ el ∈ removeClassFromAll (js "menu-btn") (js "active")
      (removeClassFromAll (js "view") (js "active") doc), el.id = tabName ++ js "-view" := by
    obtain ⟨el, hel, hid⟩ := hex
    have hm : el.id ∈ (removeClassFromAll (js "menu-btn") (js "active")
        (removeClassFromAll (js "view") (js "active") doc)).map (·.id) := by
      rw [removeClassFromAll_ids, removeClassFromAll_ids]
      exact List.mem_map_of_mem _ hel
    obtain ⟨y, hy, hye⟩ := List.mem_map.mp hm
    exact ⟨y, hy, hye.trans hid⟩
  have h3 : ∀ el ∈ removeClassFromAll (js "menu-btn") (js "active")
      (removeClassFromAll (js "view") (js "active") doc),
      el.id = tabName ++ js "-view" → el.classList.contains (js "view") = true := by
    intro el hel hid
    obtain ⟨y, hy, hyid, hyc⟩ := removeClassFromAll_mem _ _ _ el hel
    obtain ⟨x, hx, hxid, hxc⟩ := removeClassFromAll_mem _ _ _ y hy
    rw [hyc _ hne, hxc _ hne]
    exact hview x hx (hxid.trans (hyid.trans hid))
  obtain ⟨doc', panel, hadd, hid, hact⟩ := addClassById_one_active _ _ _ h1 h2 h3
  unfold switchTab
  simp only []
  rw [hadd]
  exact ⟨rfl, panel, hid, hact⟩

/-- C6: after `switchTab` no nav button is active, whatever the page was, unless the panel
`name-view` is itself a nav button; on the sample page the quiz panel is the one active view
and the count of active nav buttons is zero. -/
theorem switchTab_activates_no_nav_button :
    (∀ (doc : Document) (tabName : JSString) (el : Element),
      el ∈ activeOf (js "menu-btn") (switchTab doc tabName).1 → el.id = tabName ++ js "-view") ∧
    (switchTab sampleDocument (js "quiz")).2 = .normal ∧
    activeOf (js "view") (switchTab sampleDocument (js "quiz")).1 =
      [⟨js "quiz-view", [js "view", js "active"]⟩] ∧
    activeOf (js "menu-btn") (switchTab sampleDocument (js "quiz")).1 = [] := by
  refine ⟨?_, by decide, by decide, by decide⟩
  intro doc tabName el hel
  simp only [activeOf, List.mem_filter] at hel
  obtain ⟨hmem, hact⟩ := hel
  have hin := removeClassFromAll_inactive (js "menu-btn")
    (removeClassFromAll (js "view") (js "active") doc)
  unfold switchTab at hmem
  simp only [] at hmem
  cases hadd : addClassById (tabName ++ js "-view") (js "active")
      (removeClassFromAll (js "menu-btn") (js "active")
        (removeClassFromAll (js "view") (js "active") doc)) with
  | none =>
    rw [hadd] at hmem
    have := hin el hmem
    rw [this] at hact
    exact absurd hact (by simp)
  | some doc3 =>
    rw [hadd] at hmem
    rcases addClassById_mem _ _ _ _ hadd el hmem with h1 | h1
    · have := hin el h1
      rw [this] at hact
      exact absurd hact (by simp)
    · exact h1

/-- On the sample page an unknown tab name ends in a `TypeError`, after the page was
changed. -/
theorem switchTab_unknown_counterexample :
    (switchTab sampleDocument (js "settings")).2 = .typeError ∧
    (switchTab sampleDocument (js "settings")).1 ≠ sampleDocument := by
  decide

/-- C9 (amended): when no element carries the id `name-view`, `switchTab(name)` deactivates every
view panel and nav button, skips the activation and ends with a `TypeError`. -/
theorem switchTab_unknown_tab (doc : Document) (tabName : JSString)
    (h : ∀ el ∈ doc, el.id ≠ tabName ++ js "-view") :
    switchTab doc tabName =
      (removeClassFromAll (js "menu-btn") (js "active")
        (removeClassFromAll (js "view") (js "active") doc), .typeError) ∧
    activeOf (js "view") (switchTab doc tabName).1 = [] ∧
    activeOf (js "menu-btn") (switchTab doc tabName).1 = [] := by
  have hids : ∀ el ∈ removeClassFromAll (js "menu-btn") (js "active")
      (removeClassFromAll (js "view") (js "active") doc), el.id ≠ tabName ++ js "-view" := by
    intro el hel
    have hm : el.id ∈ (removeClassFromAll (js "menu-btn") (js "active")
      (removeClassFromAll (js "view") (js "active") doc)).map (·.id) :=
      List.mem_map_of_mem _ hel
    rw [removeClassFromAll_ids, removeClassFromAll_ids] at hm
    obtain ⟨x, hx, hxe⟩ := List.mem_map.mp hm
    rw [← hxe]
    exact h x hx
  have e : switchTab doc tabName =
      (removeClassFromAll (js "menu-btn") (js "active")
        (removeClassFromAll (js "view") (js "active") doc), .typeError) := by
    unfold switchTab
    simp only []
    rw [addClassById_none _ _ _ hids]
  refine ⟨e, ?_, ?_⟩
  · rw [e]
    apply List.filter_eq_nil_iff.mpr
    intro el hel
    have := removeClassFromAll_keeps_inactive (js "menu-btn") (js "view") _
      (removeClassFromAll_inactive (js "view") doc) el hel
    show ¬ (el.classList.contains (js "view") && el.classList.contains (js "active")) = true
    rw [this]
    exact Bool.false_ne_true
  · rw [e]
    apply List.filter_eq_nil_iff.mpr
    intro el hel
    have := removeClassFromAll_inactive (js "menu-btn") _ el hel
    show ¬ (el.classList.contains (js "menu-btn") && el.classList.contains (js "active")) = true
    rw [this]
    exact Bool.false_ne_true

/-- The sample page has no panel `settings-view`. -/
theorem switchTab_unknown_tab_witness :
    (∀ el ∈ sampleDocument, el.id ≠ js "settings" ++ js "-view") ∧
    switchTab sampleDocument (js "settings") =
      (removeClassFromAll (js "menu-btn") (js "active")
        (removeClassFromAll (js "view") (js "active") sampleDocument), .typeError) :=
  ⟨by decide, (switchTab_unknown_tab sampleDocument (js "settings") (by decide)).1⟩

/-! ## Quiz engine -/

/-- C5: a response whose `quiz_data` is absent or empty leaves the loading indicator in the
container, and an empty question array leaves the container blank; the error message is shown in
neither case. -/
theorem generateQuiz_missing_quiz_data (container : QuizContainer) (ok : Bool)
    (type : JSString) :
    generateQuiz container (.parsed ok (some ⟨.falsy, type⟩)) = ⟨quizLoadingMarkup, []⟩ ∧
    generateQuiz container (.parsed ok (some ⟨.falsy, type⟩)) ≠ ⟨quizErrorMarkup, []⟩ ∧
    generateQuiz container (.parsed ok (some ⟨.questions [], type⟩)) = ⟨[], []⟩ ∧
    generateQuiz ⟨[], []⟩ (.parsed true (some ⟨.falsy, js "multiple_choice"⟩)) =
      ⟨js "<div class=\"empty-state\"><i class=\"fa-solid fa-spinner fa-spin\"></i> Generating custom quiz...</div>", []⟩ := by
  refine ⟨rfl, ?_, rfl, by decide⟩
  show (⟨quizLoadingMarkup, []⟩ : QuizContainer) ≠ ⟨quizErrorMarkup, []⟩
  decide

/-- Every thrown exception (request, body parsing, `JSON.parse`, rendering) ends with the
error message in the container. -/
theorem generateQuiz_thrown (container : QuizContainer) (ok : Bool) (type : JSString)
    (questions : List QuizQuestion)
    (hthrow : (renderQuiz (container.setInnerHTML quizLoadingMarkup) questions type).2 =
      .typeError) :
    generateQuiz container .rejected = ⟨quizErrorMarkup, []⟩ ∧
    generateQuiz container (.unparsable ok) = ⟨quizErrorMarkup, []⟩ ∧
    generateQuiz container (.parsed ok none) = ⟨quizErrorMarkup, []⟩ ∧
    generateQuiz container (.parsed ok (some ⟨.unparsable, type⟩)) = ⟨quizErrorMarkup, []⟩ ∧
    generateQuiz container (.parsed ok (some ⟨.notArray, type⟩)) = ⟨quizErrorMarkup, []⟩ ∧
    generateQuiz container (.parsed ok (some ⟨.questions questions, type⟩)) =
      ⟨quizErrorMarkup, []⟩ := by
  refine ⟨rfl, rfl, rfl, rfl, rfl, ?_⟩
  unfold generateQuiz
  simp only []
  split
  · next rendered heq =>
    rw [heq] at hthrow
    cases hthrow
  · rfl

/-! ## Answer checking -/

theorem green_ne_red : greenBackground ≠ redBackground := by decide

theorem isCorrect_iff (s a : JSString) :
    (trim s == trim a || includes s a) = true ↔ (trim s = trim a ∨ a <:+: s) := by
  simp [includes_iff]

theorem checkAnswer_spec (card : OptionsCard) (i : Nat) (a : JSString) (btn : OptionButton)
    (h : card.buttons[i]? = some btn) :
    (checkAnswer card i a).feedback =
      (if trim btn.innerText == trim a || includes btn.innerText a then
        { innerText := js "Correct!", color := js "#4ade80", display := js "block" }
       else
        { innerText := js "Incorrect. Answer: " ++ a, color := js "#f87171",
          display := js "block" }) ∧
    (checkAnswer card i a).buttons.length = card.buttons.length ∧
    ∀ j (hj : j < card.buttons.length), (checkAnswer card i a).buttons[j]? =
      some { innerText := card.buttons[j].innerText,
             background :=
               if j = i then
                 (if trim btn.innerText == trim a || includes btn.innerText a then greenBackground
                  else redBackground)
               else neutralBackground } := by
  have hi : i < card.buttons.length := (List.getElem?_eq_some_iff.mp h).1
  have hb : btn = card.buttons[i] := by
    rcases List.getElem?_eq_some_iff.mp h with ⟨_, hb⟩; rw [hb]
  unfold checkAnswer
  rw [h]
  simp only []
  split
  · refine ⟨rfl, by simp, ?_⟩
    intro j hj
    rw [List.getElem?_set]
    by_cases hji : j = i
    · subst hji; simp [hj, hb]
    · have : ¬ i = j := fun h => hji h.symm
      simp [hji, this, hj]
  · refine ⟨rfl, by simp, ?_⟩
    intro j hj
    rw [List.getElem?_set]
    by_cases hji : j = i
    · subst hji; simp [hj, hb]
    · have : ¬ i = j := fun h => hji h.symm
      simp [hji, this, hj]

/-- C1 (amended): the clicked button turns green and the feedback reads "Correct!" exactly
when the clicked text and the answer agree after trimming, or the clicked text contains the
answer; otherwise the button turns red and the feedback reads "Incorrect. Answer: " followed
by the answer. -/
theorem checkAnswer_grading (card : OptionsCard) (i : Nat) (a : JSString) (btn : OptionButton)
    (h : card.buttons[i]? = some btn) :
    ((((checkAnswer card i a).buttons[i]?.map (·.background) = some greenBackground ∧
        (checkAnswer card i a).feedback.innerText = js "Correct!") ↔
      (trim btn.innerText = trim a ∨ a <:+: btn.innerText)) ∧
    (¬ (trim btn.innerText = trim a ∨ a <:+: btn.innerText) →
      (checkAnswer card i a).buttons[i]?.map (·.background) = some redBackground ∧
      (checkAnswer card i a).feedback.innerText = js "Incorrect. Answer: " ++ a)) := by
  have hi : i < card.buttons.length := (List.getElem?_eq_some_iff.mp h).1
  obtain ⟨hf, _, hb⟩ := checkAnswer_spec card i a btn h
  rw [hf, hb i hi]
  simp only [Option.map_some', if_true, ← isCorrect_iff]
  by_cases hc : (trim btn.innerText == trim a || includes btn.innerText a) = true
  · simp [hc]
  · simp only [hc, if_false]
    refine ⟨⟨fun hh => ?_, fun hh => absurd hh (by simp)⟩, fun _ => ⟨rfl, rfl⟩⟩
    exact absurd (Option.some.inj hh.1).symm green_ne_red

/-- The sample card with answer "4": clicking "4" is graded correct, clicking "3" incorrect. -/
theorem checkAnswer_grading_witness :
    sampleCard.buttons[1]? = some ⟨js "4", []⟩ ∧
    (checkAnswer sampleCard 1 (js "4")).buttons[1]?.map (·.background) = some greenBackground ∧
    (checkAnswer sampleCard 1 (js "4")).feedback.innerText = js "Correct!" ∧
    sampleCard.buttons[0]? = some ⟨js "3", []⟩ ∧
    (checkAnswer sampleCard 0 (js "4")).buttons[0]?.map (·.background) = some redBackground ∧
    (checkAnswer sampleCard 0 (js "4")).feedback.innerText = js "Incorrect. Answer: 4" :=
  ⟨by decide,
   ((checkAnswer_grading sampleCard 1 (js "4") ⟨js "4", []⟩ (by decide)).1.mpr
      (by decide)).1,
   ((checkAnswer_grading sampleCard 1 (js "4") ⟨js "4", []⟩ (by decide)).1.mpr
      (by decide)).2,
   by decide,
   ((checkAnswer_grading sampleCard 0 (js "4") ⟨js "3", []⟩ (by decide)).2 (by decide)).1,
   ((checkAnswer_grading sampleCard 0 (js "4") ⟨js "3", []⟩ (by decide)).2 (by decide)).2⟩

/-- Answer "4 " with a trailing blank: the button "4" is graded correct although its text
neither equals nor contains the answer. -/
theorem checkAnswer_trim_counterexample :
    (checkAnswer sampleCard 1 (js "4 ")).buttons[1]?.map (·.background) = some greenBackground ∧
    (checkAnswer sampleCard 1 (js "4 ")).feedback.innerText = js "Correct!" ∧
    ¬ (js "4" = js "4 " ∨ js "4 " <:+: js "4") := by
  decide

end QuizChat
